import Mathlib

/-!
Shallow embedding of `src/create_or_update_cost_export.py`, a one-shot
script that creates or updates an Azure Cost Management export via one
HTTP PUT and optionally triggers an immediate run via one HTTP POST.

The script is sequential and effectful only through: the process
environment (`os.getenv`), credential resolution
(`DefaultAzureCredential().get_token`), the UTC clock
(`datetime.now(timezone.utc)`), two HTTP calls (`requests.put`,
`requests.post`), logging, and `sys.exit`.  We embed it as a pure
function from those ambient inputs to an `Outcome` recording the exit
status, whether credential resolution was attempted, the HTTP requests
issued in order, and the log lines emitted.

Timestamps are modelled as microseconds since the Unix epoch (Python
`datetime` resolution); `strftime("%Y-%m-%dT%H:%M:%SZ")` renders whole
seconds, dropping the sub-second part, so a formatted timestamp is
modelled by its instant in whole seconds, `micros / 1000000`.
-/

namespace CostExport

/-- The environment variables the script reads (lines 42-47 and 138 of
the source); `none` models an unset variable. -/
structure Env where
  azureSubscriptionId : Option String
  storageAccountId : Option String
  containerName : Option String
  exportName : Option String
  timeZone : Option String
  rootFolderPath : Option String
  triggerNow : Option String
  deriving DecidableEq, Repr

/-- `os.getenv(name, default)`: the default is taken only when the
variable is unset; an empty-string value is returned as is. -/
def getenvD (v : Option String) (d : String) : String :=
  v.getD d

/-- Python truthiness of an `os.getenv` result as used by
`all([subscription_id, storage_account_id, container_name])`:
`None` and the empty string are falsy. -/
def pyTruthy : Option String → Bool
  | none => false
  | some s => !(s == "")

/-- Line 49: `all([subscription_id, storage_account_id, container_name])`. -/
def requiredPresent (env : Env) : Bool :=
  pyTruthy env.azureSubscriptionId && pyTruthy env.storageAccountId &&
    pyTruthy env.containerName

/-- Python `str.lower()`, embedded as character-wise `Char.toLower` over the
string's characters (as `String.toLower` is, but stated over the underlying
character list so that proofs can evaluate it). -/
def pyLower (s : String) : String :=
  String.mk (s.data.map Char.toLower)

/-- Line 138: `os.getenv("TRIGGER_NOW", "false").lower() in ["true", "1", "yes"]`. -/
def triggerNowTruthy (env : Env) : Bool :=
  (["true", "1", "yes"] : List String).contains (pyLower (getenvD env.triggerNow "false"))

/-- `payload.properties.deliveryInfo.destination` (lines 75-79). -/
structure Destination where
  resourceId : String
  container : String
  rootFolderPath : String
  deriving DecidableEq, Repr

/-- `payload.properties.deliveryInfo` (lines 74-80). -/
structure DeliveryInfo where
  destination : Destination
  deriving DecidableEq, Repr

/-- `payload.properties.schedule.recurrencePeriod` (lines 85-88); the two
JSON fields `from` and `to` are Lean keywords, hence `fromTime`/`toTime`.
Values are instants in whole seconds since the epoch (what the
second-resolution `strftime` string denotes). -/
structure RecurrencePeriod where
  fromTime : Nat
  toTime : Nat
  deriving DecidableEq, Repr

/-- `payload.properties.schedule` (lines 82-90). -/
structure Schedule where
  status : String
  recurrence : String
  recurrencePeriod : RecurrencePeriod
  timeZone : String
  deriving DecidableEq, Repr

/-- `payload.properties.dataSet.configuration` (lines 94-103). -/
structure DataSetConfiguration where
  columns : List String
  deriving DecidableEq, Repr

/-- `payload.properties.dataSet` (lines 92-104). -/
structure DataSet where
  granularity : String
  configuration : DataSetConfiguration
  deriving DecidableEq, Repr

/-- `payload.properties` (lines 73-105). -/
structure ExportProperties where
  deliveryInfo : DeliveryInfo
  format : String
  schedule : Schedule
  timeframe : String
  dataSet : DataSet
  deriving DecidableEq, Repr

/-- The JSON body of the PUT (lines 72-106). -/
structure Payload where
  properties : ExportProperties
  deriving DecidableEq, Repr

def microsPerSecond : Nat := 1000000

def secondsPerDay : Nat := 86400

/-- `strftime("%Y-%m-%dT%H:%M:%SZ")` keeps whole seconds of the instant,
dropping the sub-second part. -/
def formatSeconds (micros : Nat) : Nat :=
  micros / microsPerSecond

/-- Lines 69-106: `start_date = datetime.now(timezone.utc)`,
`end_date = start_date + timedelta(days=365)` and the `payload` literal.
`nowMicros` is the clock reading in microseconds since the epoch. -/
def buildPayload (storage_account_id container_name root_folder_path time_zone : String)
    (nowMicros : Nat) : Payload :=
  let start_date := nowMicros
  let end_date := start_date + 365 * secondsPerDay * microsPerSecond
  { properties :=
      { deliveryInfo :=
          { destination :=
              { resourceId := storage_account_id
                container := container_name
                rootFolderPath := root_folder_path } }
        format := "Csv"
        schedule :=
          { status := "Active"
            recurrence := "Daily"
            recurrencePeriod :=
              { fromTime := formatSeconds start_date
                toTime := formatSeconds end_date }
            timeZone := time_zone }
        timeframe := "MonthToDate"
        dataSet :=
          { granularity := "Daily"
            configuration :=
              { columns :=
                  ["Date", "ResourceId", "ResourceGroupName", "ServiceName",
                    "Cost", "Currency"] } } } }

def api_version : String := "2023-03-01"

/-- Lines 112-116: the PUT URL. -/
def putUrl (subscription_id export_name : String) : String :=
  "https://management.azure.com/subscriptions/" ++ subscription_id ++
    "/providers/Microsoft.CostManagement/exports/" ++ export_name ++
    "?api-version=" ++ api_version

/-- Lines 140-144: the run-POST URL. -/
def runUrl (subscription_id export_name : String) : String :=
  "https://management.azure.com/subscriptions/" ++ subscription_id ++
    "/providers/Microsoft.CostManagement/exports/" ++ export_name ++
    "/run?api-version=" ++ api_version

/-- Lines 117-120: the request headers. -/
structure Headers where
  authorization : String
  contentType : String
  deriving DecidableEq, Repr

/-- The headers built from the acquired bearer token. -/
def headersOf (access_token : String) : Headers :=
  { authorization := "Bearer " ++ access_token
    contentType := "application/json" }

inductive Method where
  | put
  | post
  deriving DecidableEq, Repr

/-- One HTTP request as the script issues it; the POST carries no body. -/
structure Request where
  method : Method
  url : String
  headers : Headers
  body : Option Payload
  deriving DecidableEq, Repr

/-- An HTTP response as the script consumes it: `status_code` and `text`. -/
structure HttpResponse where
  status : Nat
  text : String
  deriving DecidableEq, Repr

inductive Level where
  | info
  | warning
  | error
  deriving DecidableEq, Repr

/-- One emitted log line (level and message; the `asctime` prefix added by
the logging format is not part of the message). -/
structure LogLine where
  level : Level
  msg : String
  deriving DecidableEq, Repr

/-- What one process run did. -/
structure Outcome where
  exitCode : Nat
  credentialAttempted : Bool
  requests : List Request
  logs : List LogLine
  deriving DecidableEq, Repr

def logMissingError : LogLine :=
  { level := Level.error, msg := "Missing required environment variables." }

def logMissingRequired : LogLine :=
  { level := Level.info
    msg := "Required: AZURE_SUBSCRIPTION_ID, STORAGE_ACCOUNT_ID, CONTAINER_NAME" }

def logTokenOk : LogLine :=
  { level := Level.info, msg := "Successfully acquired Azure access token." }

def logAuthFailed (ex : String) : LogLine :=
  { level := Level.error, msg := "Authentication failed: " ++ ex }

def logCreating (export_name subscription_id : String) : LogLine :=
  { level := Level.info
    msg := "Creating or updating export '" ++ export_name ++ "' for subscription " ++
      subscription_id }

def logPutSuccess (export_name : String) : LogLine :=
  { level := Level.info
    msg := "Export '" ++ export_name ++ "' created or updated successfully." }

def logPutError (status : Nat) (text : String) : LogLine :=
  { level := Level.error
    msg := "Error creating export (" ++ toString status ++ "): " ++ text }

def logRequestFailed (ex : String) : LogLine :=
  { level := Level.error, msg := "Request failed: " ++ ex }

def logTriggerOk (export_name : String) : LogLine :=
  { level := Level.info
    msg := "Triggered export '" ++ export_name ++ "' successfully." }

def logTriggerWarn (status : Nat) (text : String) : LogLine :=
  { level := Level.warning
    msg := "Trigger returned " ++ toString status ++ ": " ++ text }

def logTriggerFailed (ex : String) : LogLine :=
  { level := Level.error, msg := "Failed to trigger export run: " ++ ex }

def logCompleted : LogLine :=
  { level := Level.info, msg := "Process completed successfully." }

/-- The payload as built from the environment (the module-level variables of
lines 43-47 feeding the literal of lines 72-106).  After validation the
three required variables are non-empty strings, so the `getD ""` defaults
are never taken where this is used. -/
def payloadOf (env : Env) (nowMicros : Nat) : Payload :=
  buildPayload (env.storageAccountId.getD "") (env.containerName.getD "")
    (getenvD env.rootFolderPath "costexports")
    (getenvD env.timeZone "Central Standard Time") nowMicros

/-- The PUT request (lines 112-125): URL, headers, JSON payload. -/
def putRequestOf (env : Env) (access_token : String) (nowMicros : Nat) : Request :=
  { method := Method.put
    url := putUrl (env.azureSubscriptionId.getD "") (getenvD env.exportName "DailyCostExport")
    headers := headersOf access_token
    body := some (payloadOf env nowMicros) }

/-- The run-POST request (lines 140-146): URL and the same headers, no body. -/
def runRequestOf (env : Env) (access_token : String) : Request :=
  { method := Method.post
    url := runUrl (env.azureSubscriptionId.getD "") (getenvD env.exportName "DailyCostExport")
    headers := headersOf access_token
    body := none }

/-- The whole script, top to bottom.  Ambient inputs: the environment,
the credential provider's result (`Except.error` = the exception caught
at line 62), the clock in microseconds since the epoch, and the two HTTP
results (`Except.error` = a transport exception from `requests`).
`sys.exit(1)` inside a `try` block is not caught by `except Exception`
(SystemExit is a BaseException), so each `sys.exit(1)` ends the run. -/
def runProgram (env : Env) (tokenResult : Except String String) (nowMicros : Nat)
    (putResult runResult : Except String HttpResponse) : Outcome :=
  if !(requiredPresent env) then
    { exitCode := 1
      credentialAttempted := false
      requests := []
      logs := [logMissingError, logMissingRequired] }
  else
    match tokenResult with
    | Except.error ex =>
        { exitCode := 1
          credentialAttempted := true
          requests := []
          logs := [logAuthFailed ex] }
    | Except.ok access_token =>
        let export_name := getenvD env.exportName "DailyCostExport"
        let putReq := putRequestOf env access_token nowMicros
        let logs1 := [logTokenOk, logCreating export_name (env.azureSubscriptionId.getD "")]
        match putResult with
        | Except.error ex =>
            { exitCode := 1
              credentialAttempted := true
              requests := [putReq]
              logs := logs1 ++ [logRequestFailed ex] }
        | Except.ok response =>
            if response.status == 200 || response.status == 201 then
              let logs2 := logs1 ++ [logPutSuccess export_name]
              if triggerNowTruthy env then
                let runReq := runRequestOf env access_token
                match runResult with
                | Except.error ex =>
                    { exitCode := 0
                      credentialAttempted := true
                      requests := [putReq, runReq]
                      logs := logs2 ++ [logTriggerFailed ex, logCompleted] }
                | Except.ok run_response =>
                    if run_response.status == 200 || run_response.status == 202 then
                      { exitCode := 0
                        credentialAttempted := true
                        requests := [putReq, runReq]
                        logs := logs2 ++ [logTriggerOk export_name, logCompleted] }
                    else
                      { exitCode := 0
                        credentialAttempted := true
                        requests := [putReq, runReq]
                        logs := logs2 ++
                          [logTriggerWarn run_response.status run_response.text, logCompleted] }
              else
                { exitCode := 0
                  credentialAttempted := true
                  requests := [putReq]
                  logs := logs2 ++ [logCompleted] }
            else
              { exitCode := 1
                credentialAttempted := true
                requests := [putReq]
                logs := logs1 ++ [logPutError response.status response.text] }

/-- `response.status_code in (200, 201)` over a PUT result; a transport
exception is never accepted. -/
def putAccepted : Except String HttpResponse → Bool
  | Except.ok r => r.status == 200 || r.status == 201
  | Except.error _ => false

/-- `run_response.status_code in (200, 202)` over a run-POST result. -/
def runAccepted : Except String HttpResponse → Bool
  | Except.ok r => r.status == 200 || r.status == 202
  | Except.error _ => false

/-- Whether the credential provider returned a token. -/
def tokOk : Except String String → Bool
  | Except.ok _ => true
  | Except.error _ => false

/-- Whether the run issued a run-POST. -/
def issuesRunPost (o : Outcome) : Bool :=
  o.requests.any (fun r => r.method == Method.post)

/-- URL of the first request issued (always the PUT when any was issued). -/
def firstUrl (o : Outcome) : Option String :=
  o.requests.head?.map Request.url

/-- Body of the first request issued. -/
def firstBody (o : Outcome) : Option Payload :=
  o.requests.head?.bind Request.body

/-- The required variables among the three that are unset or empty. -/
def missingRequired (env : Env) : List String :=
  (if pyTruthy env.azureSubscriptionId then [] else ["AZURE_SUBSCRIPTION_ID"]) ++
    (if pyTruthy env.storageAccountId then [] else ["STORAGE_ACCOUNT_ID"]) ++
    (if pyTruthy env.containerName then [] else ["CONTAINER_NAME"])

/-- A fully valid environment used to instantiate theorems on concrete runs. -/
def envW : Env :=
  { azureSubscriptionId := some "sub-1"
    storageAccountId := some "/subscriptions/s/resourceGroups/rg/providers/Microsoft.Storage/storageAccounts/acct"
    containerName := some "exports"
    exportName := none
    timeZone := none
    rootFolderPath := none
    triggerNow := some "true" }

/-- `envW` with the trigger flag unset; agrees with `envW` on the six
variables that feed the PUT request. -/
def envWNoTrigger : Env :=
  { envW with triggerNow := none }

/-- A run with only `AZURE_SUBSCRIPTION_ID` missing. -/
def envMissingSub : Env :=
  { envW with azureSubscriptionId := none, triggerNow := none }

/-- A run with only `CONTAINER_NAME` missing. -/
def envMissingContainer : Env :=
  { envW with containerName := none, triggerNow := none }

/-! ### Helper lemmas -/

/-- When validation fails the run is the fixed missing-variables outcome. -/
lemma runProgram_invalid (env : Env) (tok : Except String String) (now : Nat)
    (pr qr : Except String HttpResponse) (hv : requiredPresent env = false) :
    runProgram env tok now pr qr =
      { exitCode := 1
        credentialAttempted := false
        requests := []
        logs := [logMissingError, logMissingRequired] } := by
  unfold runProgram
  simp [hv]

/-- When validation passes and the credential provider fails, the run is the
fixed authentication-failure outcome. -/
lemma runProgram_authfail (env : Env) (ex : String) (now : Nat)
    (pr qr : Except String HttpResponse) (hv : requiredPresent env = true) :
    runProgram env (Except.error ex) now pr qr =
      { exitCode := 1
        credentialAttempted := true
        requests := []
        logs := [logAuthFailed ex] } := by
  unfold runProgram
  simp [hv]

/-- Once the token is acquired, the requests issued are the PUT alone or the
PUT followed by the run POST. -/
lemma runProgram_requests_ok (env : Env) (t : String) (now : Nat)
    (pr qr : Except String HttpResponse) (hv : requiredPresent env = true) :
    (runProgram env (Except.ok t) now pr qr).requests = [putRequestOf env t now] ∨
      (runProgram env (Except.ok t) now pr qr).requests =
        [putRequestOf env t now, runRequestOf env t] := by
  unfold runProgram
  simp only [hv, Bool.not_true, Bool.false_eq_true, if_false]
  cases pr with
  | error ex => left; rfl
  | ok r =>
    by_cases hs : (r.status == 200 || r.status == 201) = true
    · simp only [hs, if_true]
      by_cases htr : triggerNowTruthy env = true
      · simp only [htr, if_true]
        cases qr with
        | error ex => right; rfl
        | ok rr =>
          by_cases hr : (rr.status == 200 || rr.status == 202) = true
          · simp only [hr, if_true]; right; trivial
          · simp only [Bool.not_eq_true] at hr
            simp only [hr, Bool.false_eq_true, if_false]; right; trivial
      · simp only [Bool.not_eq_true] at htr
        simp only [htr, Bool.false_eq_true, if_false]; left; trivial
    · simp only [Bool.not_eq_true] at hs
      simp only [hs, Bool.false_eq_true, if_false]; left; trivial

/-- Every issued request carries either no body (the run POST) or the one
payload built from the environment and the clock (the PUT). -/
lemma body_of_mem (env : Env) (tok : Except String String) (now : Nat)
    (pr qr : Except String HttpResponse) (req : Request)
    (hreq : req ∈ (runProgram env tok now pr qr).requests) :
    req.body = none ∨ req.body = some (payloadOf env now) := by
  by_cases hv : requiredPresent env = true
  · cases tok with
    | error ex =>
      rw [runProgram_authfail env ex now pr qr hv] at hreq
      simp at hreq
    | ok t =>
      rcases runProgram_requests_ok env t now pr qr hv with h | h <;> rw [h] at hreq
      · simp only [List.mem_singleton] at hreq
        subst hreq; right; rfl
      · rcases (by simpa using hreq : req = putRequestOf env t now ∨ req = runRequestOf env t)
          with rfl | rfl
        · right; rfl
        · left; rfl
  · rw [runProgram_invalid env tok now pr qr (by simpa using hv)] at hreq
    simp at hreq

/-- Once the token is acquired, the exit status is decided by the PUT result
alone: 0 when it is accepted (200 or 201), 1 otherwise. -/
lemma exitCode_ok (env : Env) (t : String) (now : Nat)
    (pr qr : Except String HttpResponse) (hv : requiredPresent env = true) :
    (runProgram env (Except.ok t) now pr qr).exitCode =
      if putAccepted pr then 0 else 1 := by
  unfold runProgram
  simp only [hv, Bool.not_true, Bool.false_eq_true, if_false]
  cases pr with
  | error ex => rfl
  | ok r =>
    by_cases hs : (r.status == 200 || r.status == 201) = true
    · simp only [hs, if_true, putAccepted]
      by_cases htr : triggerNowTruthy env = true
      · simp only [htr, if_true]
        cases qr with
        | error ex => rfl
        | ok rr =>
          by_cases hr : (rr.status == 200 || rr.status == 202) = true
          · simp [hr]
          · simp only [Bool.not_eq_true] at hr
            simp [hr]
      · simp only [Bool.not_eq_true] at htr
        simp [htr]
    · simp only [Bool.not_eq_true] at hs
      simp [hs, putAccepted]

/-- Once the token is acquired and the PUT is answered with status 200 or
201, the success line naming the export is logged. -/
lemma logPutSuccess_mem (env : Env) (t : String) (now : Nat) (r : HttpResponse)
    (qr : Except String HttpResponse) (hv : requiredPresent env = true)
    (hs : (r.status == 200 || r.status == 201) = true) :
    logPutSuccess (getenvD env.exportName "DailyCostExport") ∈
      (runProgram env (Except.ok t) now (Except.ok r) qr).logs := by
  unfold runProgram
  simp only [hv, Bool.not_true, Bool.false_eq_true, if_false, hs, if_true]
  by_cases htr : triggerNowTruthy env = true
  · simp only [htr, if_true]
    cases qr with
    | error ex => simp
    | ok rr =>
      by_cases hr : (rr.status == 200 || rr.status == 202) = true
      · simp [hr]
      · simp only [Bool.not_eq_true] at hr
        simp [hr]
  · simp only [Bool.not_eq_true] at htr
    simp [htr]

/-- Once the token is acquired and the PUT is answered with a status other
than 200 and 201, the run's logs are exactly the token line, the submit
line, and the error line carrying the status code and the response body. -/
lemma logs_put_rejected (env : Env) (t : String) (now : Nat) (r : HttpResponse)
    (qr : Except String HttpResponse) (hv : requiredPresent env = true)
    (hs : (r.status == 200 || r.status == 201) = false) :
    (runProgram env (Except.ok t) now (Except.ok r) qr).logs =
      [logTokenOk,
        logCreating (getenvD env.exportName "DailyCostExport") (env.azureSubscriptionId.getD ""),
        logPutError r.status r.text] := by
  unfold runProgram
  simp [hv, hs]

/-- Once the token is acquired, the first request issued is always the PUT. -/
lemma head_ok (env : Env) (t : String) (now : Nat)
    (pr qr : Except String HttpResponse) (hv : requiredPresent env = true) :
    (runProgram env (Except.ok t) now pr qr).requests.head? =
      some (putRequestOf env t now) := by
  rcases runProgram_requests_ok env t now pr qr hv with h | h <;> rw [h] <;> rfl

/-! ### Claims -/

/-- C1: For every invocation with valid inputs, the constructed PUT request
body's `schedule.recurrencePeriod.to` timestamp equals the
`schedule.recurrencePeriod.from` timestamp plus exactly 365 days
(365 * 86400 seconds): `end_date = start_date + timedelta(days=365)` and
both ends are rendered from the same clock reading at second resolution. -/
theorem c1_recurrence_period_is_365_days (env : Env) (tok : Except String String)
    (nowMicros : Nat) (putR runR : Except String HttpResponse) (req : Request) (p : Payload)
    (hreq : req ∈ (runProgram env tok nowMicros putR runR).requests)
    (hbody : req.body = some p) :
    p.properties.schedule.recurrencePeriod.toTime =
      p.properties.schedule.recurrencePeriod.fromTime + 365 * 86400 := by
  rcases body_of_mem env tok nowMicros putR runR req hreq with h | h
  · rw [hbody] at h; cases h
  · have hp : p = payloadOf env nowMicros := Option.some.inj (hbody.symm.trans h)
    subst hp
    simp only [payloadOf, buildPayload, formatSeconds, microsPerSecond, secondsPerDay]
    omega

/-- Witness for C1 at a concrete run: valid environment, token `"tok"`,
clock reading 5 µs, PUT answered 200, POST answered 202. -/
theorem c1_witness :
    (payloadOf envW 5).properties.schedule.recurrencePeriod.toTime =
      (payloadOf envW 5).properties.schedule.recurrencePeriod.fromTime + 365 * 86400 :=
  c1_recurrence_period_is_365_days envW (Except.ok "tok") 5
    (Except.ok { status := 200, text := "" }) (Except.ok { status := 202, text := "" })
    (putRequestOf envW "tok" 5) (payloadOf envW 5)
    (by rcases runProgram_requests_ok envW "tok" 5
          (Except.ok { status := 200, text := "" }) (Except.ok { status := 202, text := "" })
          (by decide) with h | h <;> rw [h] <;> simp)
    rfl

/-- C5: For every invocation and regardless of all inputs, the constructed
request body's `dataSet.configuration.columns` is exactly
`["Date", "ResourceId", "ResourceGroupName", "ServiceName", "Cost", "Currency"]`
in that order. -/
theorem c5_columns_fixed (env : Env) (tok : Except String String)
    (nowMicros : Nat) (putR runR : Except String HttpResponse) (req : Request) (p : Payload)
    (hreq : req ∈ (runProgram env tok nowMicros putR runR).requests)
    (hbody : req.body = some p) :
    p.properties.dataSet.configuration.columns =
      ["Date", "ResourceId", "ResourceGroupName", "ServiceName", "Cost", "Currency"] := by
  rcases body_of_mem env tok nowMicros putR runR req hreq with h | h
  · rw [hbody] at h; cases h
  · have hp : p = payloadOf env nowMicros := Option.some.inj (hbody.symm.trans h)
    subst hp; rfl

/-- Witness for C5 at a concrete run: valid environment, token `"tok"`,
clock reading 7 µs, PUT answered 201, trigger flag set but POST failing. -/
theorem c5_witness :
    (payloadOf envW 7).properties.dataSet.configuration.columns =
      ["Date", "ResourceId", "ResourceGroupName", "ServiceName", "Cost", "Currency"] :=
  c5_columns_fixed envW (Except.ok "tok") 7
    (Except.ok { status := 201, text := "" }) (Except.error "boom")
    (putRequestOf envW "tok" 7) (payloadOf envW 7)
    (by rcases runProgram_requests_ok envW "tok" 7
          (Except.ok { status := 201, text := "" }) (Except.error "boom")
          (by decide) with h | h <;> rw [h] <;> simp)
    rfl

/-- C2: If any required environment variable (`AZURE_SUBSCRIPTION_ID`,
`STORAGE_ACCOUNT_ID`, `CONTAINER_NAME`) is unset or set to the empty
string, the program exits with status 1 before attempting credential
resolution and issues no HTTP request. -/
theorem c2_missing_required_fails_fast (env : Env) (tok : Except String String)
    (nowMicros : Nat) (putR runR : Except String HttpResponse)
    (h : env.azureSubscriptionId = none ∨ env.azureSubscriptionId = some "" ∨
      env.storageAccountId = none ∨ env.storageAccountId = some "" ∨
      env.containerName = none ∨ env.containerName = some "") :
    (runProgram env tok nowMicros putR runR).exitCode = 1 ∧
      (runProgram env tok nowMicros putR runR).credentialAttempted = false ∧
      (runProgram env tok nowMicros putR runR).requests = [] := by
  have hv : requiredPresent env = false := by
    rcases h with h | h | h | h | h | h <;> simp [requiredPresent, pyTruthy, h]
  rw [runProgram_invalid env tok nowMicros putR runR hv]
  exact ⟨rfl, rfl, rfl⟩

/-- Witness for C2 at a concrete run: `AZURE_SUBSCRIPTION_ID` unset, the
other inputs arbitrary but concrete. -/
theorem c2_witness :
    (runProgram envMissingSub (Except.ok "tok") 5 (Except.ok { status := 200, text := "" })
        (Except.ok { status := 200, text := "" })).exitCode = 1 ∧
      (runProgram envMissingSub (Except.ok "tok") 5 (Except.ok { status := 200, text := "" })
        (Except.ok { status := 200, text := "" })).credentialAttempted = false ∧
      (runProgram envMissingSub (Except.ok "tok") 5 (Except.ok { status := 200, text := "" })
        (Except.ok { status := 200, text := "" })).requests = [] :=
  c2_missing_required_fails_fast envMissingSub (Except.ok "tok") 5
    (Except.ok { status := 200, text := "" }) (Except.ok { status := 200, text := "" })
    (Or.inl rfl)

/-- C3: Once the export PUT step is reached (validation passed, token
acquired), the process exits with status 1 exactly when the HTTP response
status is neither 200 nor 201 or a transport exception was raised; on
status 200 or 201 it logs the success message naming the export and
proceeds; on any other status it logs the status code and the response
body (as the final log line) before exiting. -/
theorem c3_put_step_outcome (env : Env) (t : String) (nowMicros : Nat)
    (putR runR : Except String HttpResponse) (hv : requiredPresent env = true) :
    ((runProgram env (Except.ok t) nowMicros putR runR).exitCode = 1 ↔
      putAccepted putR = false) ∧
    (∀ r : HttpResponse, putR = Except.ok r → (r.status == 200 || r.status == 201) = true →
      logPutSuccess (getenvD env.exportName "DailyCostExport") ∈
        (runProgram env (Except.ok t) nowMicros putR runR).logs) ∧
    (∀ r : HttpResponse, putR = Except.ok r → (r.status == 200 || r.status == 201) = false →
      (runProgram env (Except.ok t) nowMicros putR runR).logs =
        [logTokenOk,
          logCreating (getenvD env.exportName "DailyCostExport")
            (env.azureSubscriptionId.getD ""),
          logPutError r.status r.text]) := by
  refine ⟨?_, ?_, ?_⟩
  · rw [exitCode_ok env t nowMicros putR runR hv]
    by_cases hp : putAccepted putR = true
    · simp [hp]
    · simp only [Bool.not_eq_true] at hp
      simp [hp]
  · rintro r rfl hs
    exact logPutSuccess_mem env t nowMicros r runR hv hs
  · rintro r rfl hs
    exact logs_put_rejected env t nowMicros r runR hv hs

/-- Witness for C3 at a concrete run: valid environment, token `"tok"`,
PUT answered 403 with body `"forbidden"`. -/
theorem c3_witness :
    ((runProgram envW (Except.ok "tok") 5 (Except.ok { status := 403, text := "forbidden" })
        (Except.ok { status := 200, text := "" })).exitCode = 1 ↔
      putAccepted (Except.ok { status := 403, text := "forbidden" }) = false) ∧
    (∀ r : HttpResponse,
      (Except.ok { status := 403, text := "forbidden" } : Except String HttpResponse) =
        Except.ok r →
      (r.status == 200 || r.status == 201) = true →
      logPutSuccess (getenvD envW.exportName "DailyCostExport") ∈
        (runProgram envW (Except.ok "tok") 5 (Except.ok { status := 403, text := "forbidden" })
          (Except.ok { status := 200, text := "" })).logs) ∧
    (∀ r : HttpResponse,
      (Except.ok { status := 403, text := "forbidden" } : Except String HttpResponse) =
        Except.ok r →
      (r.status == 200 || r.status == 201) = false →
      (runProgram envW (Except.ok "tok") 5 (Except.ok { status := 403, text := "forbidden" })
          (Except.ok { status := 200, text := "" })).logs =
        [logTokenOk,
          logCreating (getenvD envW.exportName "DailyCostExport")
            (envW.azureSubscriptionId.getD ""),
          logPutError r.status r.text]) :=
  c3_put_step_outcome envW "tok" 5 (Except.ok { status := 403, text := "forbidden" })
    (Except.ok { status := 200, text := "" }) (by decide)

/-- C4: If `TRIGGER_NOW` is truthy and the export PUT succeeded, a failure
of the run POST (any status other than 200 and 202, or a transport
exception) is only logged and the process still terminates with exit
status 0; trigger failure is never fatal. -/
theorem c4_trigger_failure_nonfatal (env : Env) (t : String) (nowMicros : Nat)
    (putR runR : Except String HttpResponse) (hv : requiredPresent env = true)
    (htr : triggerNowTruthy env = true) (hput : putAccepted putR = true)
    (hrun : runAccepted runR = false) :
    (runProgram env (Except.ok t) nowMicros putR runR).exitCode = 0 ∧
    (∀ rr : HttpResponse, runR = Except.ok rr →
      logTriggerWarn rr.status rr.text ∈
        (runProgram env (Except.ok t) nowMicros putR runR).logs) ∧
    (∀ ex : String, runR = Except.error ex →
      logTriggerFailed ex ∈ (runProgram env (Except.ok t) nowMicros putR runR).logs) := by
  refine ⟨?_, ?_, ?_⟩
  · rw [exitCode_ok env t nowMicros putR runR hv, hput]; rfl
  · rintro rr rfl
    cases putR with
    | error ex => cases hput
    | ok r =>
      have hs : (r.status == 200 || r.status == 201) = true := hput
      have hr : (rr.status == 200 || rr.status == 202) = false := hrun
      unfold runProgram
      simp [hv, hs, htr, hr]
  · rintro ex rfl
    cases putR with
    | error exn => cases hput
    | ok r =>
      have hs : (r.status == 200 || r.status == 201) = true := hput
      unfold runProgram
      simp [hv, hs, htr]

/-- Witness for C4 at a concrete run: `TRIGGER_NOW="true"`, PUT answered
200, run POST answered 500. -/
theorem c4_witness :
    (runProgram envW (Except.ok "tok") 5 (Except.ok { status := 200, text := "" })
        (Except.ok { status := 500, text := "server error" })).exitCode = 0 ∧
    (∀ rr : HttpResponse,
      (Except.ok { status := 500, text := "server error" } : Except String HttpResponse) =
        Except.ok rr →
      logTriggerWarn rr.status rr.text ∈
        (runProgram envW (Except.ok "tok") 5 (Except.ok { status := 200, text := "" })
          (Except.ok { status := 500, text := "server error" })).logs) ∧
    (∀ ex : String,
      (Except.ok { status := 500, text := "server error" } : Except String HttpResponse) =
        Except.error ex →
      logTriggerFailed ex ∈
        (runProgram envW (Except.ok "tok") 5 (Except.ok { status := 200, text := "" })
          (Except.ok { status := 500, text := "server error" })).logs) :=
  c4_trigger_failure_nonfatal envW "tok" 5 (Except.ok { status := 200, text := "" })
    (Except.ok { status := 500, text := "server error" }) (by decide) (by decide)
    (by decide) (by decide)

/-- C6: If credential resolution fails, the program exits with status 1 and
issues no HTTP request.  (When validation already failed, the run also
exits 1 with no request, so no validity hypothesis is needed.) -/
theorem c6_auth_failure_fatal_no_requests (env : Env) (ex : String)
    (nowMicros : Nat) (putR runR : Except String HttpResponse) :
    (runProgram env (Except.error ex) nowMicros putR runR).exitCode = 1 ∧
      (runProgram env (Except.error ex) nowMicros putR runR).requests = [] := by
  by_cases hv : requiredPresent env = true
  · rw [runProgram_authfail env ex nowMicros putR runR hv]
    exact ⟨rfl, rfl⟩
  · rw [runProgram_invalid env (Except.error ex) nowMicros putR runR (by simpa using hv)]
    exact ⟨rfl, rfl⟩

/-- C7 as stated is false: with `TRIGGER_NOW="true"` but the PUT answered
500, the program exits before the trigger step and no run POST is issued,
although the flag is truthy. -/
theorem c7_counterexample :
    ¬ (issuesRunPost (runProgram envW (Except.ok "tok") 5
          (Except.ok { status := 500, text := "err" })
          (Except.ok { status := 200, text := "" })) = true ↔
        triggerNowTruthy envW = true) := by
  decide

/-- C7 amended: the run POST is issued exactly when the program reaches the
trigger step — required variables present, token acquired, PUT answered
200 or 201 — and `TRIGGER_NOW`'s value lowered is one of "true", "1",
"yes" (unset defaults to "false"); any other value, or an earlier exit,
skips the trigger step. -/
theorem c7_run_post_iff (env : Env) (tok : Except String String) (nowMicros : Nat)
    (putR runR : Except String HttpResponse) :
    issuesRunPost (runProgram env tok nowMicros putR runR) =
      (requiredPresent env && tokOk tok && putAccepted putR && triggerNowTruthy env) := by
  by_cases hv : requiredPresent env = true
  · cases tok with
    | error ex =>
      rw [runProgram_authfail env ex nowMicros putR runR hv]
      simp [issuesRunPost, tokOk, hv]
    | ok t =>
      cases putR with
      | error ex =>
        unfold runProgram
        simp [hv, issuesRunPost, tokOk, putAccepted, putRequestOf]
      | ok r =>
        by_cases hs : (r.status == 200 || r.status == 201) = true
        · by_cases htr : triggerNowTruthy env = true
          · unfold runProgram
            cases runR with
            | error ex =>
              simp [hv, hs, htr, issuesRunPost, tokOk, putAccepted, putRequestOf, runRequestOf]
            | ok rr =>
              by_cases hr : (rr.status == 200 || rr.status == 202) = true
              · simp [hv, hs, htr, hr, issuesRunPost, tokOk, putAccepted, putRequestOf,
                  runRequestOf]
              · simp only [Bool.not_eq_true] at hr
                simp [hv, hs, htr, hr, issuesRunPost, tokOk, putAccepted, putRequestOf,
                  runRequestOf]
          · simp only [Bool.not_eq_true] at htr
            unfold runProgram
            simp [hv, hs, htr, issuesRunPost, tokOk, putAccepted, putRequestOf]
        · simp only [Bool.not_eq_true] at hs
          unfold runProgram
          simp [hv, hs, issuesRunPost, tokOk, putAccepted, putRequestOf]
  · have hv1 : requiredPresent env = false := by simpa using hv
    rw [runProgram_invalid env tok nowMicros putR runR hv1]
    simp [issuesRunPost, hv1]

/-- C8 as stated is false: two runs whose sets of missing required
variables differ (`AZURE_SUBSCRIPTION_ID` missing in one,
`CONTAINER_NAME` in the other) emit identical diagnostics, so the logged
diagnostic does not report which variables are missing. -/
theorem c8_counterexample :
    missingRequired envMissingSub ≠ missingRequired envMissingContainer ∧
      (runProgram envMissingSub (Except.ok "tok") 5 (Except.ok { status := 200, text := "" })
          (Except.ok { status := 200, text := "" })).logs =
        (runProgram envMissingContainer (Except.ok "tok") 5
          (Except.ok { status := 200, text := "" })
          (Except.ok { status := 200, text := "" })).logs := by
  decide

/-- C8 amended: when one or more required environment variables are
missing, the program logs, before terminating with status 1, a fixed
diagnostic — an error line and an info line naming all three required
variables — the same regardless of which variables are missing. -/
theorem c8_missing_diagnostic_fixed (env : Env) (tok : Except String String)
    (nowMicros : Nat) (putR runR : Except String HttpResponse)
    (h : requiredPresent env = false) :
    (runProgram env tok nowMicros putR runR).exitCode = 1 ∧
      (runProgram env tok nowMicros putR runR).logs =
        [logMissingError, logMissingRequired] := by
  rw [runProgram_invalid env tok nowMicros putR runR h]
  exact ⟨rfl, rfl⟩

/-- Witness for the amended C8 at a concrete run with `CONTAINER_NAME`
missing. -/
theorem c8_witness :
    (runProgram envMissingContainer (Except.error "no cred") 5
        (Except.error "down") (Except.error "down")).exitCode = 1 ∧
      (runProgram envMissingContainer (Except.error "no cred") 5
        (Except.error "down") (Except.error "down")).logs =
        [logMissingError, logMissingRequired] :=
  c8_missing_diagnostic_fixed envMissingContainer (Except.error "no cred") 5
    (Except.error "down") (Except.error "down") (by decide)

/-- C9: for the optional variables the documented default is used only when
the variable is unset; set to the empty string, the empty string itself is
used — an empty `EXPORT_NAME` yields a PUT URL whose export-name path
segment is empty — unlike required variables, for which empty is treated
as missing. -/
theorem c9_optional_empty_vs_unset (env : Env) (t : String) (nowMicros : Nat)
    (putR runR : Except String HttpResponse) :
    (requiredPresent env = true →
      ((env.exportName = some "" →
        firstUrl (runProgram env (Except.ok t) nowMicros putR runR) =
          some ("https://management.azure.com/subscriptions/" ++
            env.azureSubscriptionId.getD "" ++
            "/providers/Microsoft.CostManagement/exports/" ++ "" ++
            "?api-version=" ++ api_version)) ∧
      (env.exportName = none →
        firstUrl (runProgram env (Except.ok t) nowMicros putR runR) =
          some (putUrl (env.azureSubscriptionId.getD "") "DailyCostExport")) ∧
      (env.timeZone = some "" →
        (firstBody (runProgram env (Except.ok t) nowMicros putR runR)).map
          (fun p => p.properties.schedule.timeZone) = some "") ∧
      (env.timeZone = none →
        (firstBody (runProgram env (Except.ok t) nowMicros putR runR)).map
          (fun p => p.properties.schedule.timeZone) = some "Central Standard Time") ∧
      (env.rootFolderPath = some "" →
        (firstBody (runProgram env (Except.ok t) nowMicros putR runR)).map
          (fun p => p.properties.deliveryInfo.destination.rootFolderPath) = some "") ∧
      (env.rootFolderPath = none →
        (firstBody (runProgram env (Except.ok t) nowMicros putR runR)).map
          (fun p => p.properties.deliveryInfo.destination.rootFolderPath) =
            some "costexports"))) ∧
    (env.containerName = some "" →
      (runProgram env (Except.ok t) nowMicros putR runR).exitCode = 1 ∧
      (runProgram env (Except.ok t) nowMicros putR runR).requests = []) := by
  constructor
  · intro hv
    have hhead := head_ok env t nowMicros putR runR hv
    have hbody : firstBody (runProgram env (Except.ok t) nowMicros putR runR) =
        some (payloadOf env nowMicros) := by
      unfold firstBody; rw [hhead]; rfl
    refine ⟨?_, ?_, ?_, ?_, ?_, ?_⟩
    · intro he
      unfold firstUrl
      rw [hhead]
      simp [putRequestOf, putUrl, getenvD, he]
    · intro he
      unfold firstUrl
      rw [hhead]
      simp [putRequestOf, getenvD, he]
    · intro he
      rw [hbody]
      simp [payloadOf, buildPayload, getenvD, he]
    · intro he
      rw [hbody]
      simp [payloadOf, buildPayload, getenvD, he]
    · intro he
      rw [hbody]
      simp [payloadOf, buildPayload, getenvD, he]
    · intro he
      rw [hbody]
      simp [payloadOf, buildPayload, getenvD, he]
  · intro hc
    have hv : requiredPresent env = false := by
      simp [requiredPresent, pyTruthy, hc]
    rw [runProgram_invalid env (Except.ok t) nowMicros putR runR hv]
    exact ⟨rfl, rfl⟩

/-- C10: the PUT request (URL, headers, JSON payload) is a deterministic
function of the six configuration variables, the acquired token, and the
clock reading: two runs agreeing on those issue the same PUT (or both
issue none), whatever `TRIGGER_NOW` and the HTTP responses are — in
particular `TRIGGER_NOW` never influences the PUT. -/
theorem c10_put_request_deterministic (env1 env2 : Env) (tok : Except String String)
    (nowMicros : Nat) (putR1 runR1 putR2 runR2 : Except String HttpResponse)
    (h1 : env1.azureSubscriptionId = env2.azureSubscriptionId)
    (h2 : env1.storageAccountId = env2.storageAccountId)
    (h3 : env1.containerName = env2.containerName)
    (h4 : env1.exportName = env2.exportName)
    (h5 : env1.timeZone = env2.timeZone)
    (h6 : env1.rootFolderPath = env2.rootFolderPath) :
    (runProgram env1 tok nowMicros putR1 runR1).requests.head? =
      (runProgram env2 tok nowMicros putR2 runR2).requests.head? := by
  have hreq : requiredPresent env1 = requiredPresent env2 := by
    simp [requiredPresent, h1, h2, h3]
  have hput : ∀ a n, putRequestOf env1 a n = putRequestOf env2 a n := by
    intro a n
    simp [putRequestOf, payloadOf, h1, h2, h3, h4, h5, h6]
  by_cases hv : requiredPresent env1 = true
  · cases tok with
    | error ex =>
      rw [runProgram_authfail env1 ex nowMicros putR1 runR1 hv,
        runProgram_authfail env2 ex nowMicros putR2 runR2 (hreq ▸ hv)]
    | ok t =>
      rw [head_ok env1 t nowMicros putR1 runR1 hv,
        head_ok env2 t nowMicros putR2 runR2 (hreq ▸ hv), hput t nowMicros]
  · have hv1 : requiredPresent env1 = false := by simpa using hv
    rw [runProgram_invalid env1 tok nowMicros putR1 runR1 hv1,
      runProgram_invalid env2 tok nowMicros putR2 runR2 (hreq ▸ hv1)]

/-- Witness for C10: two concrete runs agreeing on the six variables, the
token and the clock, differing in `TRIGGER_NOW` and in both HTTP results,
issue the same first (PUT) request. -/
theorem c10_witness :
    (runProgram envW (Except.ok "tok") 7 (Except.ok { status := 200, text := "" })
        (Except.ok { status := 202, text := "" })).requests.head? =
      (runProgram envWNoTrigger (Except.ok "tok") 7 (Except.error "net down")
        (Except.ok { status := 500, text := "" })).requests.head? :=
  c10_put_request_deterministic envW envWNoTrigger (Except.ok "tok") 7
    (Except.ok { status := 200, text := "" }) (Except.ok { status := 202, text := "" })
    (Except.error "net down") (Except.ok { status := 500, text := "" })
    rfl rfl rfl rfl rfl rfl

end CostExport
